import Mathlib

/-
  Verification development for the Strife multi-bank payment system.

  The Python sources (bank_server.py, gateway.py, client.py) are embedded
  shallowly: Python dicts become association lists over String keys kept in
  insertion order, floats become Int quantities (all arithmetic used by the
  claims is exact), RPC calls become explicit oracle values of type
  RpcOutcome, and every service method becomes a pure function from state
  and request to response, new state, and a trace of the bank RPCs issued.
-/

namespace Strife

/-! ## Association-list model of Python dicts (insertion order preserved) -/

def dictLookup {α : Type} : List (String × α) → String → Option α
  | [], _ => none
  | (k, v) :: rest, key => if k == key then some v else dictLookup rest key

def dictInsert {α : Type} : List (String × α) → String → α → List (String × α)
  | [], key, val => [(key, val)]
  | (k, v) :: rest, key, val =>
    if k == key then (key, val) :: rest else (k, v) :: dictInsert rest key val

def dictErase {α : Type} : List (String × α) → String → List (String × α)
  | [], _ => []
  | (k, v) :: rest, key =>
    if k == key then dictErase rest key else (k, v) :: dictErase rest key

def countKey {α : Type} (d : List (String × α)) (key : String) : Nat :=
  (d.filter (fun kv => kv.fst == key)).length

theorem dictErase_of_lookup_none {α : Type} (d : List (String × α)) (key : String)
    (h : dictLookup d key = none) : dictErase d key = d := by
  induction d with
  | nil => rfl
  | cons kv rest ih =>
    obtain ⟨k, v⟩ := kv
    by_cases hk : k == key
    · simp [dictLookup, hk] at h
    · simp [dictLookup, hk] at h
      simp [dictErase, hk, ih h]

theorem dictLookup_insert_self {α : Type} (d : List (String × α)) (key : String) (val : α) :
    dictLookup (dictInsert d key val) key = some val := by
  induction d with
  | nil => simp [dictInsert, dictLookup]
  | cons kv rest ih =>
    obtain ⟨k, v⟩ := kv
    by_cases hk : k == key
    · simp [dictInsert, hk, dictLookup]
    · simp [dictInsert, hk, dictLookup, ih]

theorem countKey_of_lookup_none {α : Type} (d : List (String × α)) (key : String)
    (h : dictLookup d key = none) : countKey d key = 0 := by
  induction d with
  | nil => rfl
  | cons kv rest ih =>
    obtain ⟨k, v⟩ := kv
    by_cases hk : k == key
    · simp [dictLookup, hk] at h
    · simp [dictLookup, hk] at h
      simp [countKey, List.filter, hk] at ih ⊢
      exact ih h

theorem countKey_insert_of_none {α : Type} (d : List (String × α)) (key : String) (val : α)
    (h : dictLookup d key = none) : countKey (dictInsert d key val) key = 1 := by
  induction d with
  | nil => simp [dictInsert, countKey, List.filter]
  | cons kv rest ih =>
    obtain ⟨k, v⟩ := kv
    by_cases hk : k == key
    · simp [dictLookup, hk] at h
    · simp [dictLookup, hk] at h
      simp [dictInsert, hk, countKey, List.filter] at ih ⊢
      exact ih h

/-! ## Bank-side data model (bank_server.py) -/

structure Account where
  password : String
  account_id : String
  balance : Int
deriving DecidableEq, Repr

structure LedgerEntry where
  transaction_id : String
  ttype : String
  amount : Int
  counterparty : String
  timestamp : Int
  status : String
deriving DecidableEq, Repr

/-- One entry of the prepared-transaction table: the stored vote together
with the details dict recorded by PrepareTransaction. -/
structure PrepInfo where
  ready : Bool
  message : String
  account_id : String
  username : String
  ttype : String
  amount : Int
  counterparty : String
  timestamp : Int
deriving DecidableEq, Repr

structure BankState where
  users : List (String × Account)
  transactions : List (String × List LedgerEntry)
  prepared : List (String × PrepInfo)
  processed : List (String × (Bool × String))
deriving DecidableEq, Repr

structure PrepareTransactionResponse where
  ready : Bool
  message : String
deriving DecidableEq, Repr

structure CommitTransactionResponse where
  success : Bool
  message : String
deriving DecidableEq, Repr

structure AbortTransactionResponse where
  success : Bool
  message : String
deriving DecidableEq, Repr

structure BankTransactionResponse where
  success : Bool
  message : String
deriving DecidableEq, Repr

/-- The loop over self.users.items() that finds the account with the given
account id (first match in insertion order). -/
def findByAccountId (users : List (String × Account)) (account_id : String) :
    Option (String × Account) :=
  users.find? (fun p => p.snd.account_id == account_id)

/-- record_transaction: append one ledger entry (status "completed") to the
per-account history, creating the list when absent. -/
def record_transaction (txs : List (String × List LedgerEntry))
    (account_id ttype : String) (amount : Int) (counterparty : String)
    (now : Int) (transaction_id : String) : List (String × List LedgerEntry) :=
  let entries := (dictLookup txs account_id).getD []
  dictInsert txs account_id
    (entries ++ [⟨transaction_id, ttype, amount, counterparty, now, "completed"⟩])

/-- The dict assignment self.users[username]["balance"] += delta. -/
def updateUserBalance (users : List (String × Account)) (username : String)
    (delta : Int) : List (String × Account) :=
  users.map (fun p =>
    if p.fst == username then
      (p.fst, ⟨p.snd.password, p.snd.account_id, p.snd.balance + delta⟩)
    else p)

/-- BankServicer.PrepareTransaction. A repeated id returns the stored vote;
an unknown account or an underfunded debit votes not-ready without storing
anything; otherwise the ready vote is stored with the transaction details. -/
def PrepareTransaction (s : BankState) (now : Int)
    (transaction_id account_id ttype : String) (amount : Int)
    (counterparty : String) : PrepareTransactionResponse × BankState :=
  match dictLookup s.prepared transaction_id with
  | some info => (⟨info.ready, info.message⟩, s)
  | none =>
    match findByAccountId s.users account_id with
    | none => (⟨false, "Account " ++ account_id ++ " not found"⟩, s)
    | some (username, u) =>
      if ttype == "debit" && decide (u.balance < amount) then
        (⟨false, "Insufficient funds. Current balance: " ++ toString u.balance
            ++ ", required: " ++ toString amount⟩, s)
      else
        (⟨true, "Ready to process transaction"⟩,
          { s with prepared := (dictInsert s.prepared transaction_id
              ⟨true, "Ready to process transaction", account_id, username,
                ttype, amount, counterparty, now⟩) })

/-- BankServicer.CommitTransaction. Applies the recorded balance delta with
no re-check of the balance, appends the ledger entry under the 2PC
transaction id, and deletes the prepared entry. -/
def CommitTransaction (s : BankState) (now : Int) (transaction_id : String) :
    CommitTransactionResponse × BankState :=
  match dictLookup s.prepared transaction_id with
  | none => (⟨false, "Transaction not prepared"⟩, s)
  | some info =>
    if !info.ready then (⟨false, info.message⟩, s)
    else
      let delta : Int :=
        if info.ttype == "debit" then -info.amount
        else if info.ttype == "credit" then info.amount
        else 0
      (⟨true, "Transaction committed successfully"⟩,
        { s with
          users := updateUserBalance s.users info.username delta,
          transactions := record_transaction s.transactions info.account_id
            info.ttype info.amount info.counterparty now transaction_id,
          prepared := dictErase s.prepared transaction_id })

/-- BankServicer.AbortTransaction. An unknown id is answered with success
and no state change; a prepared id is removed with no balance change. -/
def AbortTransaction (s : BankState) (transaction_id : String) :
    AbortTransactionResponse × BankState :=
  match dictLookup s.prepared transaction_id with
  | none => (⟨true, "Transaction not found, considered aborted"⟩, s)
  | some _ =>
    (⟨true, "Transaction aborted successfully"⟩,
      { s with prepared := dictErase s.prepared transaction_id })

/-- BankServicer.ProcessTransaction (direct single-participant path).
fresh_id stands for the uuid4 minted by record_transaction when no
transaction id is supplied. -/
def ProcessTransaction (s : BankState) (now : Int) (account_id ttype : String)
    (amount : Int) (counterparty payment_id fresh_id : String) :
    BankTransactionResponse × BankState :=
  let cached := if payment_id != "" then dictLookup s.processed payment_id else none
  match cached with
  | some (succ, msg) => (⟨succ, msg⟩, s)
  | none =>
    let finish := fun (resp : BankTransactionResponse) (s1 : BankState) =>
      if payment_id != "" then
        (resp, { s1 with processed := (dictInsert s1.processed payment_id
            (resp.success, resp.message)) })
      else (resp, s1)
    match findByAccountId s.users account_id with
    | none => finish ⟨false, "Account " ++ account_id ++ " not found"⟩ s
    | some (username, u) =>
      if ttype == "debit" then
        if decide (u.balance < amount) then
          finish ⟨false, "Insufficient funds. Current balance: "
              ++ toString u.balance⟩ s
        else
          finish ⟨true, "Debit successful. New balance: "
              ++ toString (u.balance - amount)⟩
            { s with
              users := updateUserBalance s.users username (-amount),
              transactions := record_transaction s.transactions account_id
                "debit" amount counterparty now fresh_id }
      else if ttype == "credit" then
        finish ⟨true, "Credit successful. New balance: "
            ++ toString (u.balance + amount)⟩
          { s with
            users := updateUserBalance s.users username amount,
            transactions := record_transaction s.transactions account_id
              "credit" amount counterparty now fresh_id }
      else finish ⟨false, "Invalid transaction type: " ++ ttype⟩ s

/-- Balance of the account with the given account id, read the same way
GetBalance reads it. -/
def balanceOf (s : BankState) (account_id : String) : Option Int :=
  (findByAccountId s.users account_id).map (fun p => p.snd.balance)

/-! ## Gateway data model (gateway.py) -/

structure PaymentResponse where
  success : Bool
  transaction_id : String
  status : String
  message : String
deriving DecidableEq, Repr

structure TokenInfo where
  username : String
  bank : String
  account : String
  expires : Int
deriving DecidableEq, Repr

structure PaymentRequest where
  token : String
  sender_account : String
  receiver_account : String
  receiver_bank : String
  amount : Int
  payment_id : String
deriving DecidableEq, Repr

structure BankBalanceResponse where
  success : Bool
  balance : Int
  message : String
deriving DecidableEq, Repr

/-- Outcome of one RPC to a bank stub: a response, a deadline miss, or
another transport error carrying the grpc status-code name. -/
inductive RpcOutcome (α : Type) where
  | ok : α → RpcOutcome α
  | deadlineExceeded : RpcOutcome α
  | otherError : String → RpcOutcome α
deriving DecidableEq, Repr

/-- One RPC the gateway issues to a bank, recorded in the trace. -/
inductive BankRpc where
  | getBalance (bank account_id : String)
  | prepareTx (bank transaction_id account_id ttype : String) (amount : Int)
  | commitTx (bank transaction_id : String)
  | abortTx (bank transaction_id : String)
deriving DecidableEq, Repr

def BankRpc.isAbort : BankRpc → Bool
  | .abortTx _ _ => true
  | _ => false

/-- Environment of one _process_payment_2pc run: the outcome of each bank
call the coordinator may issue and the three budget checks
(time.time() > deadline - 1) it performs between phases. -/
structure TwoPCEnv where
  prepareSender : RpcOutcome PrepareTransactionResponse
  budgetAfterPrepareSender : Bool
  prepareReceiver : RpcOutcome PrepareTransactionResponse
  budgetAfterPrepareReceiver : Bool
  commitSender : RpcOutcome CommitTransactionResponse
  budgetAfterCommitSender : Bool
  commitReceiver : RpcOutcome CommitTransactionResponse
deriving DecidableEq, Repr

def senderTxId (global_transaction_id payment_id : String) : String :=
  global_transaction_id ++ "-sender-" ++ payment_id

def receiverTxId (global_transaction_id payment_id : String) : String :=
  global_transaction_id ++ "-receiver-" ++ payment_id

/-- PaymentGatewayServicer._is_retriable_error. The Python body builds a
list of retriable error strings and then falls off the end, returning None;
None is falsy, so every use of this classifier behaves as false. -/
def is_retriable_error (_response : PaymentResponse) : Bool := false

/-- Commit-receiver step of _process_payment_2pc (after the sender commit
succeeded and the post-sender-commit budget check passed): any failure here
is the critical-state error outcome and no abort is issued. The trace
returned is the suffix of bank RPCs issued from this point on. -/
def tpcCommitReceiver (env : TwoPCEnv) (global_transaction_id : String)
    (receiver_bank receiver_tx_id : String) : PaymentResponse × List BankRpc :=
  let commR : BankRpc := .commitTx receiver_bank receiver_tx_id
  match env.commitReceiver with
  | .deadlineExceeded =>
    (⟨false, global_transaction_id, "error",
      "CRITICAL ERROR: Transaction timed out during commit phase (receiver). Sender was debited but receiver may not be credited."⟩,
      [commR])
  | .otherError c =>
    (⟨false, global_transaction_id, "error",
      "CRITICAL ERROR: Error committing to receiver bank: " ++ c
        ++ ". Sender was debited but receiver may not be credited."⟩,
      [commR])
  | .ok crr =>
    if !crr.success then
      (⟨false, global_transaction_id, "error",
        "CRITICAL ERROR: Sender debited but receiver credit failed: " ++ crr.message⟩,
        [commR])
    else
      (⟨true, global_transaction_id, "completed",
        "Payment processed successfully"⟩, [commR])

/-- Commit-sender step of _process_payment_2pc (phase 2, both votes YES),
including the post-sender-commit budget check. -/
def tpcCommitSender (env : TwoPCEnv) (global_transaction_id : String)
    (sender_bank sender_tx_id receiver_bank receiver_tx_id : String) :
    PaymentResponse × List BankRpc :=
  let commS : BankRpc := .commitTx sender_bank sender_tx_id
  let abortS : BankRpc := .abortTx sender_bank sender_tx_id
  let abortR : BankRpc := .abortTx receiver_bank receiver_tx_id
  match env.commitSender with
  | .deadlineExceeded =>
    (⟨false, global_transaction_id, "failed",
      "Transaction timed out during commit phase (sender)"⟩,
      [commS, abortR, abortS])
  | .otherError c =>
    (⟨false, global_transaction_id, "failed",
      "Error committing to sender bank: " ++ c⟩, [commS, abortR])
  | .ok csr =>
    if !csr.success then
      (⟨false, global_transaction_id, "failed",
        "Transaction failed during commit phase: " ++ csr.message⟩,
        [commS, abortR])
    else if env.budgetAfterCommitSender then
      (⟨false, global_transaction_id, "error",
        "CRITICAL ERROR: Transaction timed out after sender committed. System may be in inconsistent state."⟩,
        [commS])
    else
      let out := tpcCommitReceiver env global_transaction_id receiver_bank receiver_tx_id
      (out.1, commS :: out.2)

/-- Prepare-receiver step of _process_payment_2pc, including the budget
check before the commit phase. -/
def tpcPrepareReceiver (env : TwoPCEnv) (global_transaction_id : String)
    (sender_bank sender_tx_id receiver_bank receiver_tx_id receiver_account : String)
    (amount : Int) : PaymentResponse × List BankRpc :=
  let prepR : BankRpc := .prepareTx receiver_bank receiver_tx_id receiver_account "credit" amount
  let abortS : BankRpc := .abortTx sender_bank sender_tx_id
  let abortR : BankRpc := .abortTx receiver_bank receiver_tx_id
  match env.prepareReceiver with
  | .deadlineExceeded =>
    (⟨false, global_transaction_id, "failed",
      "Transaction timed out during preparation (receiver)"⟩, [prepR, abortS])
  | .otherError c =>
    (⟨false, global_transaction_id, "failed",
      "Error communicating with receiver bank: " ++ c⟩, [prepR, abortS])
  | .ok rpr =>
    if !rpr.ready then
      (⟨false, global_transaction_id, "failed",
        "Receiver bank cannot process: " ++ rpr.message⟩, [prepR, abortS])
    else if env.budgetAfterPrepareReceiver then
      (⟨false, global_transaction_id, "failed",
        "Transaction timed out before commit phase"⟩, [prepR, abortS, abortR])
    else
      let out := tpcCommitSender env global_transaction_id
        sender_bank sender_tx_id receiver_bank receiver_tx_id
      (out.1, prepR :: out.2)

/-- Prepare-sender step of _process_payment_2pc (phase 1), including the
budget check after the sender prepare. -/
def tpcPrepareSender (env : TwoPCEnv) (global_transaction_id : String)
    (sender_bank sender_tx_id sender_account receiver_bank receiver_tx_id receiver_account : String)
    (amount : Int) : PaymentResponse × List BankRpc :=
  let prepS : BankRpc := .prepareTx sender_bank sender_tx_id sender_account "debit" amount
  let abortS : BankRpc := .abortTx sender_bank sender_tx_id
  match env.prepareSender with
  | .deadlineExceeded =>
    (⟨false, global_transaction_id, "failed",
      "Transaction timed out during preparation (sender)"⟩, [prepS])
  | .otherError c =>
    (⟨false, global_transaction_id, "failed",
      "Error communicating with sender bank: " ++ c⟩, [prepS])
  | .ok spr =>
    if !spr.ready then
      (⟨false, global_transaction_id, "failed",
        "Sender bank cannot process: " ++ spr.message⟩, [prepS])
    else if env.budgetAfterPrepareSender then
      (⟨false, global_transaction_id, "failed",
        "Transaction timed out during preparation phase"⟩, [prepS, abortS])
    else
      let out := tpcPrepareReceiver env global_transaction_id
        sender_bank sender_tx_id receiver_bank receiver_tx_id receiver_account amount
      (out.1, prepS :: out.2)

/-- PaymentGatewayServicer._process_payment_2pc. The uuid4 global
transaction id minted at the top of the call is passed in as an argument;
the function returns the response together with the ordered trace of bank
RPCs issued (prepares, commits and aborts, including calls that end in a
timeout or transport error). The phases are factored into the tpc*
functions above following the straight-line structure of the source. -/
def process_payment_2pc (stubs : List String) (env : TwoPCEnv)
    (global_transaction_id payment_id : String)
    (sender_bank sender_account receiver_bank receiver_account : String)
    (amount : Int) : PaymentResponse × List BankRpc :=
  if sender_bank == receiver_bank && sender_account == receiver_account then
    (⟨true, global_transaction_id, "completed",
      "Self-transfer processed successfully (no balance change)"⟩, [])
  else if !(stubs.contains sender_bank) then
    (⟨false, "", "failed", "Sender bank " ++ sender_bank ++ " not found"⟩, [])
  else if !(stubs.contains receiver_bank) then
    (⟨false, "", "failed", "Receiver bank " ++ receiver_bank ++ " not found"⟩, [])
  else
    tpcPrepareSender env global_transaction_id
      sender_bank (senderTxId global_transaction_id payment_id) sender_account
      receiver_bank (receiverTxId global_transaction_id payment_id) receiver_account
      amount

/-- Environment of one ProcessPayment call: the outcome of the GetBalance
call plus the 2PC environment. -/
structure GatewayEnv where
  getBalance : RpcOutcome BankBalanceResponse
  tpc : TwoPCEnv
deriving DecidableEq, Repr

/-- Caching helper for the four pre-2PC failure paths of ProcessPayment,
each guarded by if payment_id (Python truthiness of the string). -/
def cacheIf (payment_id : String) (keys : List (String × PaymentResponse))
    (resp : PaymentResponse) : List (String × PaymentResponse) :=
  if payment_id != "" then dictInsert keys payment_id resp else keys

/-- PaymentGatewayServicer.ProcessPayment. State is the token table and the
idempotency cache PROCESSED_KEYS; the result is the response, the new
cache, and the trace of bank RPCs issued (a GetBalance followed by the 2PC
trace). The body token is looked up only for presence, with no expiry
check. -/
def ProcessPayment (stubs : List String) (tokens : List (String × TokenInfo))
    (keys : List (String × PaymentResponse)) (env : GatewayEnv)
    (global_transaction_id : String) (request : PaymentRequest) :
    PaymentResponse × List (String × PaymentResponse) × List BankRpc :=
  match dictLookup tokens request.token with
  | none =>
    (⟨false, "", "failed", "Authentication failed: Invalid token"⟩, keys, [])
  | some sender_info =>
    let sender_bank := sender_info.bank
    let sender_account := sender_info.account
    if request.sender_account != "self" && request.sender_account != sender_account then
      (⟨false, "", "failed", "Authorization failed: Not your account"⟩, keys, [])
    else
      let payment_id := request.payment_id
      let cachedHit : Option PaymentResponse :=
        if payment_id != "" then
          match dictLookup keys payment_id with
          | some cached =>
            if cached.success || !(is_retriable_error cached) then some cached else none
          | none => none
        else none
      match cachedHit with
      | some cached => (cached, keys, [])
      | none =>
        if !(stubs.contains request.receiver_bank) then
          let resp : PaymentResponse :=
            ⟨false, "", "failed", "Receiver bank " ++ request.receiver_bank ++ " not found"⟩
          (resp, cacheIf payment_id keys resp, [])
        else
          let balAct : BankRpc := .getBalance sender_bank sender_account
          match env.getBalance with
          | .deadlineExceeded =>
            let resp : PaymentResponse :=
              ⟨false, "", "failed", "Payment failed: Deadline Exceeded"⟩
            (resp, cacheIf payment_id keys resp, [balAct])
          | .otherError c =>
            let resp : PaymentResponse := ⟨false, "", "failed", "Payment failed: " ++ c⟩
            (resp, cacheIf payment_id keys resp, [balAct])
          | .ok br =>
            if !br.success then
              let resp : PaymentResponse :=
                ⟨false, "", "failed", "Could not verify balance: " ++ br.message⟩
              (resp, cacheIf payment_id keys resp, [balAct])
            else if decide (br.balance < request.amount) then
              let resp : PaymentResponse :=
                ⟨false, "", "failed", "Authorization failed: Insufficient funds. Available: "
                  ++ toString br.balance ++ ", Required: " ++ toString request.amount⟩
              (resp, cacheIf payment_id keys resp, [balAct])
            else
              let out := process_payment_2pc stubs env.tpc global_transaction_id
                payment_id sender_bank sender_account
                request.receiver_bank request.receiver_account request.amount
              let keys2 :=
                if payment_id != "" && (out.fst.success || !(is_retriable_error out.fst)) then
                  dictInsert keys payment_id out.fst
                else keys
              (out.fst, keys2, balAct :: out.snd)

/-- The three methods of AuthInterceptor.auth_required_methods. -/
def authRequiredMethods : List String :=
  ["/payment.PaymentGateway/CheckBalance",
   "/payment.PaymentGateway/ProcessPayment",
   "/payment.PaymentGateway/GetTransactionHistory"]

/-- AuthInterceptor.intercept_service, reduced to whether the call is
passed through to the service method (true) or replaced by the
unauthenticated handler (false). The token is read from the invocation
metadata. -/
def intercept_allows (tokens : List (String × TokenInfo)) (now : Int)
    (method : String) (metadata : List (String × String)) : Bool :=
  if method == "/payment.PaymentGateway/Authenticate" then true
  else if authRequiredMethods.contains method then
    match dictLookup metadata "token" with
    | none => false
    | some token =>
      match dictLookup tokens token with
      | none => false
      | some info => if decide (info.expires < now) then false else true
  else true

/-! ## Client pending-payment queue (client.py) -/

/-- One pending-payment record, the JSON file written under the per-client
directory keyed by payment id. -/
structure PendingTx where
  receiver_account : String
  receiver_bank : String
  amount : Int
  timestamp : Int
deriving DecidableEq, Repr

/-- Python substring containment, spelled out on character lists. -/
def charsMatch : List Char → List Char → Bool
  | [], _ => true
  | _ :: _, [] => false
  | a :: as, b :: bs => a == b && charsMatch as bs

def charsHave (needle : List Char) : List Char → Bool
  | [] => charsMatch needle []
  | c :: rest => charsMatch needle (c :: rest) || charsHave needle rest

def strHas (haystack needle : String) : Bool :=
  charsHave needle.data haystack.data

/-- PaymentClient.make_payment. The pending record is written before the
send attempt and removed only when the response reports success; sendResult
is the (response.success, message) pair _send_payment produces. -/
def make_payment (pending : List (String × PendingTx)) (payment_id : String)
    (tx : PendingTx) (sendResult : Bool × String) :
    (Bool × String × String) × List (String × PendingTx) :=
  let pending1 := dictInsert pending payment_id tx
  if sendResult.fst then
    ((true, sendResult.snd, payment_id), dictErase pending1 payment_id)
  else if strHas sendResult.snd "UNAVAILABLE" then
    ((false, "Payment server is currently unavailable. Will try later", payment_id),
      pending1)
  else ((false, sendResult.snd, payment_id), pending1)

/-- The loop body of retry_pending_transactions: each pending record is
re-sent and the file is removed exactly when the send reports success.
Returns the remaining queue, the retried and succeeded counts, and the
all-succeeded flag. -/
def retryLoop (send : String → Bool × String) :
    List (String × PendingTx) → List (String × PendingTx) × Nat × Nat × Bool
  | [] => ([], 0, 0, true)
  | (k, tx) :: rest =>
    let out := retryLoop send rest
    if (send k).fst then (out.1, out.2.1 + 1, out.2.2.1 + 1, out.2.2.2)
    else ((k, tx) :: out.1, out.2.1 + 1, out.2.2.1, false)

/-- PaymentClient.retry_pending_transactions: queue after the loop plus the
returned (success, message) pair. -/
def retry_pending_transactions (pending : List (String × PendingTx))
    (send : String → Bool × String) :
    List (String × PendingTx) × Bool × String :=
  let out := retryLoop send pending
  (out.1, out.2.2.2,
    "Retried " ++ toString out.2.1 ++ " transactions, "
      ++ toString out.2.2.1 ++ " succeeded")

/-! ## Auxiliary lemmas -/

theorem dictLookup_erase_self {α : Type} (d : List (String × α)) (key : String) :
    dictLookup (dictErase d key) key = none := by
  induction d with
  | nil => rfl
  | cons kv rest ih =>
    obtain ⟨k, v⟩ := kv
    by_cases hk : k == key
    · simp [dictErase, hk, ih]
    · simp [dictErase, hk, dictLookup, ih]

theorem retryLoop_lookup_of_send_false (send : String → Bool × String)
    (pending : List (String × PendingTx)) (payment_id : String) (tx : PendingTx)
    (hs : (send payment_id).fst = false)
    (h : dictLookup pending payment_id = some tx) :
    dictLookup (retryLoop send pending).1 payment_id = some tx := by
  induction pending with
  | nil => simp [dictLookup] at h
  | cons kv rest ih =>
    obtain ⟨k, tx0⟩ := kv
    by_cases hk : k == payment_id
    · have hkeq : k = payment_id := by simpa using hk
      simp [dictLookup, hk] at h
      simp [retryLoop, hkeq, hs, dictLookup, h]
    · simp [dictLookup, hk] at h
      cases hsend : (send k).fst with
      | true => simp [retryLoop, hsend, ih h]
      | false => simp [retryLoop, hsend, dictLookup, hk, ih h]

theorem retryLoop_lookup_of_send_true (send : String → Bool × String)
    (pending : List (String × PendingTx)) (payment_id : String)
    (hs : (send payment_id).fst = true) :
    dictLookup (retryLoop send pending).1 payment_id = none := by
  induction pending with
  | nil => simp [retryLoop, dictLookup]
  | cons kv rest ih =>
    obtain ⟨k, tx0⟩ := kv
    by_cases hk : k == payment_id
    · have hkeq : k = payment_id := by simpa using hk
      simp [retryLoop, hkeq, hs, ih]
    · cases hsend : (send k).fst with
      | true => simp [retryLoop, hsend, ih]
      | false => simp [retryLoop, hsend, dictLookup, hk, ih]

/-! ## Claim C9: abort safety at the bank -/

/-- C9: AbortTransaction always returns success; it changes no account
balance, appends no ledger entry, leaves the processed cache alone, and its
only effect is removing the transaction id from the prepared table (an
absent id, treated as already aborted, leaves the table unchanged as
well). -/
theorem c9_abort_safety (s : BankState) (transaction_id : String) :
    (AbortTransaction s transaction_id).1.success = true ∧
    (AbortTransaction s transaction_id).2.users = s.users ∧
    (AbortTransaction s transaction_id).2.transactions = s.transactions ∧
    (AbortTransaction s transaction_id).2.processed = s.processed ∧
    (AbortTransaction s transaction_id).2.prepared = dictErase s.prepared transaction_id := by
  unfold AbortTransaction
  cases h : dictLookup s.prepared transaction_id with
  | none => simp [dictErase_of_lookup_none s.prepared transaction_id h]
  | some info => simp

/-! ## Claim C2: commit of an overdrawn prepared debit -/

def c2Bank0 : BankState := ⟨[("user1", ⟨"pass1", "ACC001", 100⟩)], [], [], []⟩

def c2Prepared : BankState :=
  (PrepareTransaction
    (PrepareTransaction c2Bank0 0 "tx1" "ACC001" "debit" 100 "Bank2/ACC002").2
    1 "tx2" "ACC001" "debit" 100 "Bank2/ACC002").2

/-- C2 is violated by the code: with balance 100 and two prepared debits of
100 (both vote ready against the same funds), the first commit drains the
account and the second commit still returns success and drives the balance
to -100; CommitTransaction applies the delta with no balance re-check, so
the commit neither surfaces failed nor leaves the balance unchanged. -/
theorem c2_commit_overdraft :
    (PrepareTransaction c2Bank0 0 "tx1" "ACC001" "debit" 100 "Bank2/ACC002").1.ready = true ∧
    (PrepareTransaction
      (PrepareTransaction c2Bank0 0 "tx1" "ACC001" "debit" 100 "Bank2/ACC002").2
      1 "tx2" "ACC001" "debit" 100 "Bank2/ACC002").1.ready = true ∧
    (CommitTransaction c2Prepared 2 "tx1").1.success = true ∧
    balanceOf (CommitTransaction c2Prepared 2 "tx1").2 "ACC001" = some 0 ∧
    (CommitTransaction (CommitTransaction c2Prepared 2 "tx1").2 3 "tx2").1.success = true ∧
    balanceOf (CommitTransaction (CommitTransaction c2Prepared 2 "tx1").2 3 "tx2").2 "ACC001"
      = some (-100) := by decide

/-! ## Claim C5: PrepareTransaction idempotency -/

def c5Bank0 : BankState := ⟨[("user1", ⟨"pass1", "ACC001", 50⟩)], [], [], []⟩

/-- C5 counterexample: the first Prepare of a debit of 100 against balance
50 votes not-ready, and that vote is not recorded; after an intervening
credit of 100 raises the balance, a second PrepareTransaction with the very
same transaction id votes ready — the two calls do not return the same
vote, and the second call does not return an originally recorded vote. -/
theorem c5_counterexample :
    (PrepareTransaction c5Bank0 0 "tx1" "ACC001" "debit" 100 "cp").1.ready = false ∧
    (PrepareTransaction
      (ProcessTransaction
        (PrepareTransaction c5Bank0 0 "tx1" "ACC001" "debit" 100 "cp").2
        1 "ACC001" "credit" 100 "Bank" "" "fresh").2
      2 "tx1" "ACC001" "debit" 100 "cp").1.ready = true := by decide

/-- C5 amended: two consecutive PrepareTransaction calls with the same
transaction id and no intervening operation return the same vote with the
same resulting state, and the prepared table keeps at most one entry for
the id; a ready vote is recorded and returned verbatim, while a not-ready
vote is not recorded and the second call re-evaluates the same state. -/
theorem c5_prepare_idempotent_consecutive (s : BankState) (now1 now2 : Int)
    (transaction_id account_id ttype : String) (amount : Int) (counterparty : String)
    (hcount : countKey s.prepared transaction_id ≤ 1) :
    PrepareTransaction
        (PrepareTransaction s now1 transaction_id account_id ttype amount counterparty).2
        now2 transaction_id account_id ttype amount counterparty
      = PrepareTransaction s now1 transaction_id account_id ttype amount counterparty ∧
    countKey (PrepareTransaction s now1 transaction_id account_id ttype amount counterparty).2.prepared
        transaction_id ≤ 1 := by
  unfold PrepareTransaction
  cases h : dictLookup s.prepared transaction_id with
  | some info => simp [h, hcount]
  | none =>
    cases ha : findByAccountId s.users account_id with
    | none => simp [h, ha, hcount]
    | some p =>
      obtain ⟨username, u⟩ := p
      by_cases hd : (ttype == "debit" && decide (u.balance < amount)) = true
      · simp [h, ha, hd, hcount]
      · simp only [h, ha, hd]
        simp [dictLookup_insert_self, countKey_insert_of_none s.prepared transaction_id _ h]

/-- Witness for the amended C5 theorem at a concrete bank state. -/
theorem c5_witness :
    PrepareTransaction
        (PrepareTransaction c5Bank0 5 "tx9" "ACC001" "debit" 10 "cp").2
        6 "tx9" "ACC001" "debit" 10 "cp"
      = PrepareTransaction c5Bank0 5 "tx9" "ACC001" "debit" 10 "cp" ∧
    countKey (PrepareTransaction c5Bank0 5 "tx9" "ACC001" "debit" 10 "cp").2.prepared "tx9" ≤ 1 :=
  c5_prepare_idempotent_consecutive c5Bank0 5 6 "tx9" "ACC001" "debit" 10 "cp" (by decide)

/-! ## Claim C8: client pending-payment records -/

def c8Tx : PendingTx := ⟨"ACC002", "Bank2", 100, 0⟩

/-- C8 counterexample: a retry of a pending payment that receives the
gateway cached non-retriable failure (success=false) does not delete the
record — retry_pending_transactions removes a file only when the send
reports success, so the record stays in the queue. -/
theorem c8_counterexample :
    (retry_pending_transactions [("p-1", c8Tx)]
        (fun _ => (false,
          "Authorization failed: Insufficient funds. Available: 50, Required: 100"))).1
      = [("p-1", c8Tx)] := by decide

/-- C8 amended: the client writes the pending record before the first send
and deletes it exactly upon a success response; after any non-success
response the record stays in place, and a retry deletes the record exactly
when its send reports success — a retry that receives the cached
non-retriable failure (success=false) leaves the record in the queue. -/
theorem c8_pending_record_lifecycle (pending : List (String × PendingTx))
    (payment_id : String) (tx : PendingTx) (sendResult : Bool × String)
    (send : String → Bool × String) :
    (sendResult.fst = true →
      dictLookup (make_payment pending payment_id tx sendResult).2 payment_id = none) ∧
    (sendResult.fst = false →
      dictLookup (make_payment pending payment_id tx sendResult).2 payment_id = some tx) ∧
    (∀ tx0, dictLookup pending payment_id = some tx0 →
      ((send payment_id).fst = false →
        dictLookup (retry_pending_transactions pending send).1 payment_id = some tx0) ∧
      ((send payment_id).fst = true →
        dictLookup (retry_pending_transactions pending send).1 payment_id = none)) := by
  refine ⟨?_, ?_, ?_⟩
  · intro hs
    simp [make_payment, hs, dictLookup_erase_self]
  · intro hs
    unfold make_payment
    by_cases hu : strHas sendResult.snd "UNAVAILABLE"
    · simp [hs, hu, dictLookup_insert_self]
    · simp [hs, hu, dictLookup_insert_self]
  · intro tx0 h
    exact ⟨fun hs => retryLoop_lookup_of_send_false send pending payment_id tx0 hs h,
      fun hs => retryLoop_lookup_of_send_true send pending payment_id hs⟩

/-- Witness for the amended C8 theorem: a failed send leaves the freshly
written pending record in place. -/
theorem c8_witness :
    dictLookup (make_payment [] "p-1" c8Tx (false, "cached failure")).2 "p-1" = some c8Tx :=
  (c8_pending_record_lifecycle [] "p-1" c8Tx (false, "cached failure")
    (fun _ => (false, "cached failure"))).2.1 rfl

/-! ## Claim C10: success equals completed across all gateway paths -/

/-- Boolean form of the response invariant: success holds exactly on
status completed. -/
def respOkB (r : PaymentResponse) : Bool := r.success == (r.status == "completed")

theorem respOkB_tpcCommitReceiver (env : TwoPCEnv) (g rb rtid : String) :
    respOkB (tpcCommitReceiver env g rb rtid).1 = true := by
  unfold tpcCommitReceiver
  repeat' split
  all_goals rfl

theorem respOkB_tpcCommitSender (env : TwoPCEnv) (g sb stid rb rtid : String) :
    respOkB (tpcCommitSender env g sb stid rb rtid).1 = true := by
  unfold tpcCommitSender
  repeat' split
  all_goals first | rfl | exact respOkB_tpcCommitReceiver env g rb rtid

theorem respOkB_tpcPrepareReceiver (env : TwoPCEnv) (g sb stid rb rtid ra : String)
    (amt : Int) : respOkB (tpcPrepareReceiver env g sb stid rb rtid ra amt).1 = true := by
  unfold tpcPrepareReceiver
  repeat' split
  all_goals first | rfl | exact respOkB_tpcCommitSender env g sb stid rb rtid

theorem respOkB_tpcPrepareSender (env : TwoPCEnv) (g sb stid sa rb rtid ra : String)
    (amt : Int) : respOkB (tpcPrepareSender env g sb stid sa rb rtid ra amt).1 = true := by
  unfold tpcPrepareSender
  repeat' split
  all_goals first | rfl | exact respOkB_tpcPrepareReceiver env g sb stid rb rtid ra amt

theorem respOkB_2pc (stubs : List String) (env : TwoPCEnv)
    (g p sb sa rb ra : String) (amount : Int) :
    respOkB (process_payment_2pc stubs env g p sb sa rb ra amount).1 = true := by
  unfold process_payment_2pc
  repeat' split
  all_goals first | rfl | apply respOkB_tpcPrepareSender

theorem respOkB_iff (r : PaymentResponse) :
    respOkB r = true ↔ (r.success = true ↔ r.status = "completed") := by
  unfold respOkB
  cases hs : r.success <;> cases hc : r.status == "completed" <;> simp_all

theorem dictLookup_insert_cases {α : Type} (d : List (String × α)) (key p : String)
    (val : α) (r : α) (h : dictLookup (dictInsert d key val) p = some r) :
    r = val ∨ dictLookup d p = some r := by
  induction d with
  | nil =>
    by_cases hk : key == p
    · simp [dictInsert, dictLookup, hk] at h
      exact Or.inl h.symm
    · simp [dictInsert, dictLookup, hk] at h
  | cons kv rest ih =>
    obtain ⟨k, v⟩ := kv
    by_cases hk : k == key
    · have hkeq : k = key := by simpa using hk
      subst hkeq
      by_cases hkp : k == p
      · simp [dictInsert, dictLookup, hkp] at h
        exact Or.inl h.symm
      · simp [dictInsert, dictLookup, hkp] at h ⊢
        exact Or.inr h
    · by_cases hkp : k == p
      · simp [dictInsert, hk, dictLookup, hkp] at h ⊢
        exact Or.inr h
      · simp [dictInsert, hk, dictLookup, hkp] at h ⊢
        exact ih h

theorem cacheIf_preserves (keys : List (String × PaymentResponse))
    (payment_id : String) (resp : PaymentResponse)
    (hkeys : ∀ p r, dictLookup keys p = some r →
      (r.success = true ↔ r.status = "completed"))
    (hresp : respOkB resp = true) :
    ∀ p r, dictLookup (cacheIf payment_id keys resp) p = some r →
      (r.success = true ↔ r.status = "completed") := by
  intro p r h
  unfold cacheIf at h
  by_cases hp : payment_id != ""
  · simp [hp] at h
    rcases dictLookup_insert_cases keys payment_id p resp r h with heq | hold
    · exact heq ▸ (respOkB_iff resp).1 hresp
    · exact hkeys p r hold
  · simp [hp] at h
    exact hkeys p r h

theorem respOk_of_respOkB {r : PaymentResponse} (h : respOkB r = true) :
    r.success = true ↔ r.status = "completed" := (respOkB_iff r).1 h

/-- C10: every PaymentResponse returned by ProcessPayment (all 2PC paths
included) satisfies success=true exactly when status is completed, so a
failed or error status always carries success=false; the invariant is also
preserved by the idempotency cache, so cached replays keep it. -/
theorem c10_success_iff_completed (stubs : List String)
    (tokens : List (String × TokenInfo)) (keys : List (String × PaymentResponse))
    (env : GatewayEnv) (g : String) (req : PaymentRequest)
    (hkeys : ∀ p r, dictLookup keys p = some r → (r.success = true ↔ r.status = "completed")) :
    ((ProcessPayment stubs tokens keys env g req).1.success = true
        ↔ (ProcessPayment stubs tokens keys env g req).1.status = "completed") ∧
    (∀ p r, dictLookup (ProcessPayment stubs tokens keys env g req).2.1 p = some r →
      (r.success = true ↔ r.status = "completed")) := by
  unfold ProcessPayment
  dsimp only
  split
  · exact ⟨respOk_of_respOkB rfl, hkeys⟩
  · split
    · exact ⟨respOk_of_respOkB rfl, hkeys⟩
    · split
      · rename_i cached heq
        refine ⟨?_, hkeys⟩
        split at heq
        · split at heq
          · rename_i c hc
            simp [is_retriable_error] at heq
            exact heq ▸ hkeys req.payment_id c hc
          · simp at heq
        · simp at heq
      · split
        · exact ⟨respOk_of_respOkB rfl, cacheIf_preserves keys req.payment_id _ hkeys rfl⟩
        · split
          · exact ⟨respOk_of_respOkB rfl, cacheIf_preserves keys req.payment_id _ hkeys rfl⟩
          · exact ⟨respOk_of_respOkB rfl, cacheIf_preserves keys req.payment_id _ hkeys rfl⟩
          · split
            · exact ⟨respOk_of_respOkB rfl, cacheIf_preserves keys req.payment_id _ hkeys rfl⟩
            · split
              · exact ⟨respOk_of_respOkB rfl, cacheIf_preserves keys req.payment_id _ hkeys rfl⟩
              · refine ⟨respOk_of_respOkB (respOkB_2pc _ _ _ _ _ _ _ _ _), ?_⟩
                intro p r h
                split at h
                · rcases dictLookup_insert_cases keys req.payment_id p _ r h with heq | hold
                  · exact heq ▸ respOk_of_respOkB (respOkB_2pc _ _ _ _ _ _ _ _ _)
                  · exact hkeys p r hold
                · exact hkeys p r h

/-! ## Shared concrete fixtures for the gateway claims -/

def stubsB : List String := ["Bank1", "Bank2"]

/-- 2PC environment where every bank call answers in time and votes or
commits positively. -/
def envHappy : TwoPCEnv :=
  ⟨.ok ⟨true, "Ready to process transaction"⟩, false,
   .ok ⟨true, "Ready to process transaction"⟩, false,
   .ok ⟨true, "Transaction committed successfully"⟩, false,
   .ok ⟨true, "Transaction committed successfully"⟩⟩

def c10Tokens : List (String × TokenInfo) := [("tok10", ⟨"user1", "Bank1", "ACC001", 100⟩)]

def c10Req : PaymentRequest := ⟨"tok10", "self", "ACC002", "Bank2", 100, "p-10"⟩

def c10Env : GatewayEnv := ⟨.ok ⟨true, 1000, "Balance retrieved successfully"⟩, envHappy⟩

/-- Witness for C10 at a concrete happy-path run starting from an empty
cache. -/
theorem c10_witness :
    ((ProcessPayment stubsB c10Tokens [] c10Env "g" c10Req).1.success = true
        ↔ (ProcessPayment stubsB c10Tokens [] c10Env "g" c10Req).1.status = "completed") ∧
    (∀ p r, dictLookup (ProcessPayment stubsB c10Tokens [] c10Env "g" c10Req).2.1 p = some r →
      (r.success = true ↔ r.status = "completed")) :=
  c10_success_iff_completed stubsB c10Tokens [] c10Env "g" c10Req
    (by intro p r h; simp [dictLookup] at h)

/-! ## Claim C3: no abort after a successful sender commit -/

/-- C3: once the sender bank acknowledged CommitTransaction with success
(a run whose guards passed, both prepares voted ready in time, and the
sender commit returned success), the coordinator issues no AbortTransaction
to either participant, and every subsequent failure — budget expiry before
the receiver commit, a receiver commit answering non-success, or a receiver
commit RPC deadline or transport error — produces status error; the only
other outcome is completed. -/
theorem c3_no_abort_after_sender_commit (stubs : List String) (env : TwoPCEnv)
    (g p sb sa rb ra : String) (amount : Int)
    (hself : (sb == rb && sa == ra) = false)
    (hsb : stubs.contains sb = true) (hrb : stubs.contains rb = true)
    (spr : PrepareTransactionResponse) (hps : env.prepareSender = .ok spr)
    (hpsr : spr.ready = true)
    (hb1 : env.budgetAfterPrepareSender = false)
    (rpr : PrepareTransactionResponse) (hpr : env.prepareReceiver = .ok rpr)
    (hprr : rpr.ready = true)
    (hb2 : env.budgetAfterPrepareReceiver = false)
    (csr : CommitTransactionResponse) (hcs : env.commitSender = .ok csr)
    (hcss : csr.success = true) :
    (∀ a ∈ (process_payment_2pc stubs env g p sb sa rb ra amount).2, a.isAbort = false) ∧
    (env.budgetAfterCommitSender = true →
      (process_payment_2pc stubs env g p sb sa rb ra amount).1.status = "error") ∧
    (∀ crr, env.commitReceiver = .ok crr → crr.success = false →
      (process_payment_2pc stubs env g p sb sa rb ra amount).1.status = "error") ∧
    (env.commitReceiver = .deadlineExceeded →
      (process_payment_2pc stubs env g p sb sa rb ra amount).1.status = "error") ∧
    (∀ c, env.commitReceiver = .otherError c →
      (process_payment_2pc stubs env g p sb sa rb ra amount).1.status = "error") ∧
    ((process_payment_2pc stubs env g p sb sa rb ra amount).1.status = "completed" ∨
     (process_payment_2pc stubs env g p sb sa rb ra amount).1.status = "error") := by
  unfold process_payment_2pc tpcPrepareSender tpcPrepareReceiver tpcCommitSender
  simp only [hself, hsb, hrb, hps, hpsr, hb1, hpr, hprr, hb2, hcs, hcss,
    Bool.not_true, Bool.not_false, if_false, if_true, Bool.false_eq_true,
    ite_false, ite_true]
  cases hb3 : env.budgetAfterCommitSender with
  | true =>
    simp [BankRpc.isAbort]
  | false =>
    cases hcr : env.commitReceiver with
    | ok crr =>
      cases hcrs : crr.success with
      | true => simp [tpcCommitReceiver, hcr, hcrs, BankRpc.isAbort]
      | false => simp [tpcCommitReceiver, hcr, hcrs, BankRpc.isAbort]
    | deadlineExceeded => simp [tpcCommitReceiver, hcr, BankRpc.isAbort]
    | otherError c => simp [tpcCommitReceiver, hcr, BankRpc.isAbort]

/-- 2PC environment that reaches a successful sender commit and then hits a
deadline on the receiver commit. -/
def c3Env : TwoPCEnv :=
  ⟨.ok ⟨true, "Ready to process transaction"⟩, false,
   .ok ⟨true, "Ready to process transaction"⟩, false,
   .ok ⟨true, "Transaction committed successfully"⟩, false,
   .deadlineExceeded⟩

/-- Witness for C3: a receiver-commit deadline after the sender committed
yields status error and a trace without any abort. -/
theorem c3_witness :
    (∀ a ∈ (process_payment_2pc stubsB c3Env "g" "p-3" "Bank1" "ACC001" "Bank2" "ACC002" 100).2,
      a.isAbort = false) ∧
    (process_payment_2pc stubsB c3Env "g" "p-3" "Bank1" "ACC001" "Bank2" "ACC002" 100).1.status
      = "error" := by
  have h := c3_no_abort_after_sender_commit stubsB c3Env "g" "p-3"
    "Bank1" "ACC001" "Bank2" "ACC002" 100
    (by decide) (by decide) (by decide)
    ⟨true, "Ready to process transaction"⟩ rfl rfl rfl
    ⟨true, "Ready to process transaction"⟩ rfl rfl rfl
    ⟨true, "Transaction committed successfully"⟩ rfl rfl
  exact ⟨h.1, h.2.2.2.1 rfl⟩

/-! ## Claim C4: per-participant transaction ids across attempts -/

theorem append_ne_of_ne (a b c : String) (h : a ≠ b) : a ++ c ≠ b ++ c := by
  intro he
  apply h
  have h2 := congrArg String.data he
  simp only [String.data_append] at h2
  have hlen : a.data.length = b.data.length := by
    have h3 := congrArg List.length h2
    simp only [List.length_append] at h3
    omega
  exact String.ext (List.append_inj h2 hlen).1

/-- C4 counterexample: two attempts of the same payment id mint distinct
fresh uuid4 global ids (modeled by the distinct arguments g1 and g2), and
the Prepare issued to the sender bank then carries different transaction
ids, so the retry does not address the same prepared-transaction entry. -/
theorem c4_counterexample :
    (process_payment_2pc stubsB envHappy "g1" "p-1" "Bank1" "ACC001" "Bank2" "ACC002" 100).2.head?
      = some (BankRpc.prepareTx "Bank1" (senderTxId "g1" "p-1") "ACC001" "debit" 100) ∧
    (process_payment_2pc stubsB envHappy "g2" "p-1" "Bank1" "ACC001" "Bank2" "ACC002" 100).2.head?
      = some (BankRpc.prepareTx "Bank1" (senderTxId "g2" "p-1") "ACC001" "debit" 100) ∧
    senderTxId "g1" "p-1" ≠ senderTxId "g2" "p-1" ∧
    receiverTxId "g1" "p-1" ≠ receiverTxId "g2" "p-1" := by decide

/-- C4 amended: each attempt derives its per-participant ids in the shapes
global-sender-payment and global-receiver-payment from that attempt's own
freshly minted global transaction id, and the first bank RPC of a
non-short-circuited run is the sender Prepare under that derived id; two
attempts whose global ids differ (as fresh uuid4 minting gives) derive
different per-participant ids. -/
theorem c4_fresh_global_id_distinct_tx_ids (stubs : List String) (env : TwoPCEnv)
    (g1 g2 p sb sa rb ra : String) (amount : Int)
    (hself : (sb == rb && sa == ra) = false)
    (hsb : stubs.contains sb = true) (hrb : stubs.contains rb = true)
    (hg : g1 ≠ g2) :
    (process_payment_2pc stubs env g1 p sb sa rb ra amount).2.head?
      = some (BankRpc.prepareTx sb (senderTxId g1 p) sa "debit" amount) ∧
    senderTxId g1 p ≠ senderTxId g2 p ∧
    receiverTxId g1 p ≠ receiverTxId g2 p := by
  refine ⟨?_, ?_, ?_⟩
  · unfold process_payment_2pc tpcPrepareSender tpcPrepareReceiver tpcCommitSender
    simp only [hself, hsb, hrb, Bool.not_true, Bool.not_false, if_false, ite_true, ite_false]
    cases hps : env.prepareSender with
    | ok spr =>
      cases hr : spr.ready <;> cases hb1 : env.budgetAfterPrepareSender <;>
        simp [hps, hr, hb1]
    | deadlineExceeded => simp [hps]
    | otherError c => simp [hps]
  · exact append_ne_of_ne _ _ p (append_ne_of_ne g1 g2 "-sender-" hg)
  · exact append_ne_of_ne _ _ p (append_ne_of_ne g1 g2 "-receiver-" hg)

/-- Witness for the amended C4 theorem at concrete global ids. -/
theorem c4_witness :
    (process_payment_2pc stubsB envHappy "g1" "p-7" "Bank1" "ACC001" "Bank2" "ACC002" 100).2.head?
      = some (BankRpc.prepareTx "Bank1" (senderTxId "g1" "p-7") "ACC001" "debit" 100) ∧
    senderTxId "g1" "p-7" ≠ senderTxId "g2" "p-7" ∧
    receiverTxId "g1" "p-7" ≠ receiverTxId "g2" "p-7" :=
  c4_fresh_global_id_distinct_tx_ids stubsB envHappy "g1" "g2" "p-7"
    "Bank1" "ACC001" "Bank2" "ACC002" 100 (by decide) (by decide) (by decide) (by decide)

/-! ## Claim C1: the idempotency cache and transient outcomes -/

def c1Tokens : List (String × TokenInfo) := [("tok1", ⟨"user1", "Bank1", "ACC001", 1000⟩)]

def c1Req : PaymentRequest := ⟨"tok1", "self", "ACC002", "Bank2", 100, "p-1"⟩

/-- Gateway environment in which the sender-prepare RPC exceeds its
deadline, the transient outcome par excellence. -/
def c1Env : GatewayEnv :=
  ⟨.ok ⟨true, 1000, "Balance retrieved successfully"⟩,
   ⟨.deadlineExceeded, false, .ok ⟨true, "Ready to process transaction"⟩, false,
    .ok ⟨true, "Transaction committed successfully"⟩, false,
    .ok ⟨true, "Transaction committed successfully"⟩⟩⟩

/-- C1 is violated by the code: a sender-prepare deadline is a transient
outcome (a timeout prior to the sender commit), yet ProcessPayment writes
it to the idempotency cache — _is_retriable_error returns None, which is
falsy, so the not-retriable test always passes — and the retry with the
same payment id is answered from the cache with no bank RPC instead of a
fresh attempt. -/
theorem c1_transient_outcome_cached :
    (ProcessPayment stubsB c1Tokens [] c1Env "g1" c1Req).1.status = "failed" ∧
    (ProcessPayment stubsB c1Tokens [] c1Env "g1" c1Req).1.message
      = "Transaction timed out during preparation (sender)" ∧
    dictLookup (ProcessPayment stubsB c1Tokens [] c1Env "g1" c1Req).2.1 "p-1"
      = some (ProcessPayment stubsB c1Tokens [] c1Env "g1" c1Req).1 ∧
    (ProcessPayment stubsB c1Tokens
        (ProcessPayment stubsB c1Tokens [] c1Env "g1" c1Req).2.1 c1Env "g2" c1Req).1
      = (ProcessPayment stubsB c1Tokens [] c1Env "g1" c1Req).1 ∧
    (ProcessPayment stubsB c1Tokens
        (ProcessPayment stubsB c1Tokens [] c1Env "g1" c1Req).2.1 c1Env "g2" c1Req).2.2
      = [] := by decide

/-! ## Claim C6: token expiry across the two token checks -/

def c6Tokens : List (String × TokenInfo) :=
  [("tokA", ⟨"user1", "Bank1", "ACC001", 100⟩), ("tokB", ⟨"user2", "Bank1", "ACC002", 10⟩)]

def c6Req : PaymentRequest := ⟨"tokB", "self", "ACC005", "Bank2", 100, "p-6"⟩

def c6Env : GatewayEnv := ⟨.ok ⟨true, 1000, "Balance retrieved successfully"⟩, envHappy⟩

/-- C6 counterexample: at time 50 the token tokB (expiry 10) is expired yet
still present in the token table; with a valid metadata token tokA the
interceptor passes the call through, and ProcessPayment — which checks the
body token only for presence, never expiry — completes the payment with
success for the expired tokB, so the call carrying the expired body token
is neither rejected before the method runs nor prevented from
succeeding. -/
theorem c6_counterexample :
    intercept_allows c6Tokens 50 "/payment.PaymentGateway/ProcessPayment" [("token", "tokA")]
      = true ∧
    dictLookup c6Tokens "tokB" = some ⟨"user2", "Bank1", "ACC002", 10⟩ ∧
    ((10 : Int) < 50) ∧
    (ProcessPayment stubsB c6Tokens [] c6Env "g" c6Req).1.success = true ∧
    (ProcessPayment stubsB c6Tokens [] c6Env "g" c6Req).1.status = "completed" := by decide

/-- C6 amended: for the RPCs in the interceptor set, a metadata token that
is present in the token table but expired (expiry earlier than now) is
rejected by the interceptor before the service method runs; ProcessPayment
additionally rejects a body token that is absent from the table, but it
checks the body token only for presence, not expiry. -/
theorem c6_expired_metadata_token_rejected
    (tokens : List (String × TokenInfo)) (now : Int) (method : String)
    (metadata : List (String × String)) (t : String) (info : TokenInfo)
    (hm : authRequiredMethods.contains method = true)
    (hmd : dictLookup metadata "token" = some t)
    (htk : dictLookup tokens t = some info)
    (hexp : info.expires < now) :
    intercept_allows tokens now method metadata = false ∧
    (∀ stubs keys env g (req : PaymentRequest), dictLookup tokens req.token = none →
      (ProcessPayment stubs tokens keys env g req).1
        = ⟨false, "", "failed", "Authentication failed: Invalid token"⟩) := by
  constructor
  · have hne : (method == "/payment.PaymentGateway/Authenticate") = false := by
      simp [authRequiredMethods] at hm
      rcases hm with h | h | h <;> subst h <;> decide
    have hmem : method ∈ authRequiredMethods := by simpa using hm
    unfold intercept_allows
    simp [hne, hmem, hmd, htk, hexp]
  · intro stubs keys env g req hnone
    unfold ProcessPayment
    simp [hnone]

/-- Witness for the amended C6 theorem: the expired tokB offered as the
metadata token is rejected by the interceptor. -/
theorem c6_witness :
    intercept_allows c6Tokens 50 "/payment.PaymentGateway/ProcessPayment" [("token", "tokB")]
      = false ∧
    (∀ stubs keys env g (req : PaymentRequest), dictLookup c6Tokens req.token = none →
      (ProcessPayment stubs c6Tokens keys env g req).1
        = ⟨false, "", "failed", "Authentication failed: Invalid token"⟩) :=
  c6_expired_metadata_token_rejected c6Tokens 50 "/payment.PaymentGateway/ProcessPayment"
    [("token", "tokB")] "tokB" ⟨"user2", "Bank1", "ACC002", 10⟩
    (by decide) (by decide) (by decide) (by decide)

/-! ## Claim C7: self-transfer path -/

def c7Tokens : List (String × TokenInfo) := [("tok7", ⟨"user1", "Bank1", "ACC001", 100⟩)]

def c7Req : PaymentRequest := ⟨"tok7", "self", "ACC001", "Bank1", 50, "p-5"⟩

def c7Env : GatewayEnv := ⟨.ok ⟨true, 1000, "Balance retrieved successfully"⟩, envHappy⟩

/-- C7 counterexample: the self-transfer of scenario p-5 does return
success with status completed, but ProcessPayment issues a GetBalance RPC
to the sender bank before the 2PC short-circuit, so the payment is not
processed without issuing any RPC to a bank. -/
theorem c7_counterexample :
    (ProcessPayment stubsB c7Tokens [] c7Env "g" c7Req).1.success = true ∧
    (ProcessPayment stubsB c7Tokens [] c7Env "g" c7Req).1.status = "completed" ∧
    (ProcessPayment stubsB c7Tokens [] c7Env "g" c7Req).2.2
      = [BankRpc.getBalance "Bank1" "ACC001"] := by decide

/-- C7 amended: a self-transfer (receiver equal to the authenticated
sender account at the same bank, with a fresh payment id and a sufficient
balance reported) returns success with status completed, and the only bank
RPC issued is the read-only GetBalance to the sender bank — no Prepare,
Commit or Abort is sent, so no balance changes and no ledger entry is
written. -/
theorem c7_self_transfer_reads_balance_only (stubs : List String)
    (tokens : List (String × TokenInfo)) (keys : List (String × PaymentResponse))
    (env : GatewayEnv) (g : String) (req : PaymentRequest) (info : TokenInfo)
    (br : BankBalanceResponse)
    (htok : dictLookup tokens req.token = some info)
    (hsend : req.sender_account = "self")
    (hfresh : dictLookup keys req.payment_id = none)
    (hrb : stubs.contains req.receiver_bank = true)
    (hbal : env.getBalance = .ok br) (hbs : br.success = true)
    (hble : ¬ br.balance < req.amount)
    (hbank : req.receiver_bank = info.bank)
    (hacct : req.receiver_account = info.account) :
    (ProcessPayment stubs tokens keys env g req).1.success = true ∧
    (ProcessPayment stubs tokens keys env g req).1.status = "completed" ∧
    (ProcessPayment stubs tokens keys env g req).2.2
      = [BankRpc.getBalance info.bank info.account] := by
  unfold ProcessPayment
  simp only [htok, hsend, hfresh, hrb, hbal]
  unfold process_payment_2pc
  simp [hbank, hacct, hbs, hble]

/-- Witness for the amended C7 theorem at the concrete p-5 scenario. -/
theorem c7_witness :
    (ProcessPayment stubsB c7Tokens [] c7Env "g" c7Req).1.success = true ∧
    (ProcessPayment stubsB c7Tokens [] c7Env "g" c7Req).1.status = "completed" ∧
    (ProcessPayment stubsB c7Tokens [] c7Env "g" c7Req).2.2
      = [BankRpc.getBalance "Bank1" "ACC001"] := by
  have h := c7_self_transfer_reads_balance_only stubsB c7Tokens [] c7Env "g" c7Req
    ⟨"user1", "Bank1", "ACC001", 100⟩ ⟨true, 1000, "Balance retrieved successfully"⟩
    (by decide) (by decide) (by decide) (by decide) (by decide) (by decide)
    (by decide) (by decide) (by decide)
  exact h

end Strife
